import Mathlib

/-!
Verification development for the GFormFetcher server (src/server.ts and the
unnamed earlier variant).  The TypeScript source is shallowly embedded:

* the JavaScript `Map<string, string>` used for `formCache` is embedded as an
  association list with `Map.has` / `Map.get` / `Map.set` translated to
  `mapHas` / `mapGet` / `mapSet`;
* the Express query value `req.query.url` is embedded as
  `Option QueryValue` (`none` = parameter missing, `str` = a single string,
  `arr` = a repeated query key, which Express parses to an array);
* the puppeteer page used by the fetch handler is embedded as a `PageOracle`
  giving, for each URL, whether `page.goto` succeeds and what
  `page.content()` returns afterwards (`none` = the capture throws);
* `initializeBrowser` is embedded as a function of an `InitEnv` record that
  fixes the outcome of every awaited browser step in source order, returning
  the final values of the module-level `browser` / `persistentPage`
  references together with the surfaced result and the cleanup actions of
  the `catch` block;
* the shared-page data race is embedded as a small-step interleaving
  semantics over the three awaited steps of the miss path
  (`goto`, `content`, `cache.set`), with one shared page location.
-/

namespace GFormFetcher

/-! ## The in-memory cache (`formCache : Map<string, string>`) -/

/-- Embedding of `Map.has` on the association-list cache. -/
def mapHas (c : List (String × String)) (k : String) : Bool :=
  c.any (fun p => p.1 = k)

/-- Embedding of `Map.get` on the association-list cache: the value of the
first (and, by `Map` semantics, only) binding of the key. -/
def mapGet : List (String × String) → String → Option String
  | [], _ => none
  | p :: rest, k => if p.1 = k then some p.2 else mapGet rest k

/-- Embedding of `Map.set`: replace the binding if the key exists, otherwise
append a fresh binding. -/
def mapSet : List (String × String) → String → String → List (String × String)
  | [], k, v => [(k, v)]
  | p :: rest, k, v => if p.1 = k then (k, v) :: rest else p :: mapSet rest k v

/-! ## Requests and responses -/

/-- A value of the `url` query parameter as Express delivers it: a single
string, or an array from a repeated query key. -/
inductive QueryValue where
  | str : String → QueryValue
  | arr : List String → QueryValue
deriving DecidableEq, Repr

/-- The observable HTTP response: `ok body` is `res.send(body)` (status 200),
`jsonError s e` is `res.status(s).json({ error: e })`. -/
inductive HttpResponse where
  | ok : String → HttpResponse
  | jsonError : Nat → String → HttpResponse
deriving DecidableEq, Repr

/-- Status code carried by a response; `res.send` defaults to 200. -/
def HttpResponse.status : HttpResponse → Nat
  | .ok _ => 200
  | .jsonError s _ => s

/-- The module-level mutable state of the server: the nullable `browser` and
`persistentPage` references and the `formCache` map. -/
structure ServerState where
  browser : Option Unit
  persistentPage : Option Unit
  formCache : List (String × String)
deriving DecidableEq, Repr

/-- Behaviour of the shared puppeteer page for one request: whether
`page.goto url` succeeds, and what `page.content()` returns when the page is
at `url` (`none` = the capture throws). -/
structure PageOracle where
  goto : String → Bool
  content : String → Option String

/-- Result of one run of the fetch handler: the response sent, the server
state afterwards, and the list of URLs passed to `page.goto` during the
request (empty on the cache-hit and error-before-navigation paths). -/
structure FetchResult where
  response : HttpResponse
  state : ServerState
  navCalls : List String
deriving DecidableEq, Repr

def urlRequiredMsg : String := "URL is required and must be a string"

def notInitializedMsg : String := "Browser not initialized"

def fetchFailedMsg : String := "Failed to fetch form"

/-- JavaScript truthiness of the `url` query value: `undefined` and the empty
string are falsy, arrays are truthy. -/
def jsTruthy : Option QueryValue → Bool
  | none => false
  | some (.str s) => !(s == "")
  | some (.arr _) => true

/-- Embedding of `typeof url === "string"`. -/
def isStringParam : Option QueryValue → Bool
  | some (.str _) => true
  | _ => false

/-- The string carried by a `str` query value (meaningful only under
`isStringParam`). -/
def getStr : Option QueryValue → String
  | some (.str s) => s
  | _ => ""

/-- Embedding of `fetchFormHandler` (src/server.ts lines 107-138): validate
`url`, guard on the browser/page references, consult the cache, otherwise
navigate, capture, cache and send; any navigation/capture failure is caught
and answered with a 500. -/
def fetchFormHandler (urlParam : Option QueryValue) (st : ServerState)
    (pg : PageOracle) : FetchResult :=
  if !(jsTruthy urlParam) || !(isStringParam urlParam) then
    ⟨.jsonError 400 urlRequiredMsg, st, []⟩
  else
    let url := getStr urlParam
    if st.browser.isNone || st.persistentPage.isNone then
      ⟨.jsonError 500 notInitializedMsg, st, []⟩
    else if mapHas st.formCache url then
      ⟨.ok ((mapGet st.formCache url).getD ""), st, []⟩
    else if pg.goto url then
      match pg.content url with
      | some html =>
        ⟨.ok html, { st with formCache := mapSet st.formCache url html }, [url]⟩
      | none => ⟨.jsonError 500 fetchFailedMsg, st, [url]⟩
    else ⟨.jsonError 500 fetchFailedMsg, st, [url]⟩

/-! ## `initializeBrowser` (src/server.ts lines 43-104)

Every awaited puppeteer step of the login flow can throw; an `InitEnv`
record fixes, in source order, whether each step succeeds, what the
challenge-detection `evaluate` observes, whether the Gmail verification
option element is found, and the code the human supplies to
`promptForCode` (whose promise only ever resolves). -/

/-- Outcomes of the awaited steps of `initializeBrowser`, in source order. -/
structure InitEnv where
  launchOk : Bool
  newPageOk : Bool
  setTimeoutOk : Bool
  gotoLoginOk : Bool
  typeEmailOk : Bool
  clickIdentifierNextOk : Bool
  waitLoginSelectorOk : Bool
  evaluateOk : Bool
  isVerificationPrompt : Bool
  gmailOptionFound : Bool
  clickGmailOptionOk : Bool
  waitNavGmailOk : Bool
  waitCodeFieldOk : Bool
  code : String
  typeCodeOk : Bool
  clickTotpNextOk : Bool
  waitNavCodeOk : Bool
  typePasswordOk : Bool
  clickPasswordNextOk : Bool
  waitNavPasswordOk : Bool
deriving DecidableEq, Repr

/-- Which branch of the login flow completed authentication. -/
inductive AuthBranch where
  | direct
  | challenge
deriving DecidableEq, Repr

/-- What `initializeBrowser` surfaces to its caller: normal return (tagged
with the branch that ran) or a thrown error. -/
inductive InitResult where
  | ok : AuthBranch → InitResult
  | error : String → InitResult
deriving DecidableEq, Repr

/-- Observable outcome of a run of `initializeBrowser`: final values of the
module-level `browser` and `persistentPage` references, the surfaced result,
whether the `catch` block closed each resource, whether each resource was
ever acquired, which branch bodies ran, and the code submitted to the
challenge form (on the challenge path). -/
structure InitOutcome where
  browser : Option Unit
  persistentPage : Option Unit
  result : InitResult
  pageClosed : Bool
  browserClosed : Bool
  browserAcquired : Bool
  pageAcquired : Bool
  directRun : Bool
  challengeRun : Bool
  submittedCode : Option String
deriving DecidableEq, Repr

def gmailOptionMissingMsg : String := "Gmail verification option not found."

/-- Stand-in for the opaque error a failing puppeteer step rejects with
(timeout, missing selector, navigation failure); the source rethrows it
unchanged. -/
def stepFailMsg : String := "puppeteer step failed"

/-- The `catch` block of `initializeBrowser`: close the page if held, close
the browser if held, null both references, rethrow the error.  `br`/`pg` are
the reference values at the point the error was thrown; `acqBr`/`acqPg`
record whether the resources were ever acquired in this run; `dR`/`cR`
record which branch bodies had started. -/
def initCatch (br pg : Option Unit) (acqBr acqPg dR cR : Bool)
    (e : String) : InitOutcome :=
  { browser := none, persistentPage := none, result := .error e,
    pageClosed := pg.isSome, browserClosed := br.isSome,
    browserAcquired := acqBr, pageAcquired := acqPg,
    directRun := dR, challengeRun := cR, submittedCode := none }

/-- First failing step, if any, among the login steps that run after both
resources are held and before the branch: `setDefaultNavigationTimeout`,
the entry-point `goto`, typing the identifier, clicking next, waiting for
the password/challenge selector, and the challenge-detection `evaluate`,
in source order. -/
def sharedStepsErr (env : InitEnv) : Option String :=
  if !env.setTimeoutOk then some stepFailMsg
  else if !env.gotoLoginOk then some stepFailMsg
  else if !env.typeEmailOk then some stepFailMsg
  else if !env.clickIdentifierNextOk then some stepFailMsg
  else if !env.waitLoginSelectorOk then some stepFailMsg
  else if !env.evaluateOk then some stepFailMsg
  else none

/-- First failing step, if any, of the challenge branch: the missing Gmail
option throws `gmailOptionMissingMsg`; then clicking it, waiting for
navigation, waiting for the code field, typing the human code, clicking
submit, and the final navigation wait, in source order. -/
def challengeStepsErr (env : InitEnv) : Option String :=
  if !env.gmailOptionFound then some gmailOptionMissingMsg
  else if !env.clickGmailOptionOk then some stepFailMsg
  else if !env.waitNavGmailOk then some stepFailMsg
  else if !env.waitCodeFieldOk then some stepFailMsg
  else if !env.typeCodeOk then some stepFailMsg
  else if !env.clickTotpNextOk then some stepFailMsg
  else if !env.waitNavCodeOk then some stepFailMsg
  else none

/-- First failing step, if any, of the direct password branch: typing the
password, clicking next, and the navigation wait, in source order. -/
def directStepsErr (env : InitEnv) : Option String :=
  if !env.typePasswordOk then some stepFailMsg
  else if !env.clickPasswordNextOk then some stepFailMsg
  else if !env.waitNavPasswordOk then some stepFailMsg
  else none

/-- Embedding of `initializeBrowser`: launch, open a page, run the shared
login steps, then branch on the detected verification prompt — the
challenge branch selects the Gmail option, blocks on the human code and
submits it; the direct branch types the password and confirms navigation.
A failure at any step runs the `catch` block holding whichever resources
were acquired by then. -/
def initializeBrowser (env : InitEnv) : InitOutcome :=
  match env.launchOk, env.newPageOk, sharedStepsErr env,
      env.isVerificationPrompt, challengeStepsErr env, directStepsErr env with
  | false, _, _, _, _, _ =>
    initCatch none none false false false false stepFailMsg
  | true, false, _, _, _, _ =>
    initCatch (some ()) none true false false false stepFailMsg
  | true, true, some e, _, _, _ =>
    initCatch (some ()) (some ()) true true false false e
  | true, true, none, true, some e, _ =>
    initCatch (some ()) (some ()) true true false true e
  | true, true, none, true, none, _ =>
    { browser := some (), persistentPage := some (), result := .ok .challenge,
      pageClosed := false, browserClosed := false,
      browserAcquired := true, pageAcquired := true,
      directRun := false, challengeRun := true,
      submittedCode := some env.code }
  | true, true, none, false, _, some e =>
    initCatch (some ()) (some ()) true true true false e
  | true, true, none, false, _, none =>
    { browser := some (), persistentPage := some (), result := .ok .direct,
      pageClosed := false, browserClosed := false,
      browserAcquired := true, pageAcquired := true,
      directRun := true, challengeRun := false,
      submittedCode := none }

/-! ## `startServer` and the top-level catch (src/server.ts lines 143-166) -/

/-- Whether the transport layer started listening and which exit code the
process took: `startServer` awaits `initializeBrowser` before
`app.listen`, and the top-level `.catch` exits the process with code 1. -/
structure StartOutcome where
  listening : Bool
  exitCode : Option Nat
deriving DecidableEq, Repr

/-- Embedding of `startServer` together with the top-level
`startServer().catch(err => process.exit(1))`. -/
def startServer (env : InitEnv) : StartOutcome :=
  match (initializeBrowser env).result with
  | .ok _ => { listening := true, exitCode := none }
  | .error _ => { listening := false, exitCode := some 1 }

/-! ## `shutdown` (src/server.ts lines 151-157; SIGINT/SIGTERM handlers of
the unnamed variant, lines 104-116) -/

/-- Observable outcome of one run of the shutdown path: whether each close
was performed and the exit code. -/
structure ShutdownOutcome where
  pageClosed : Bool
  browserClosed : Bool
  rlClosed : Bool
  exitCode : Nat
deriving DecidableEq, Repr

/-- Embedding of `shutdown`: close the page if the reference is non-null,
close the browser if non-null, close the readline interface, exit 0.  The
references themselves are not mutated by the handler. -/
def shutdown (browser persistentPage : Option Unit) : ShutdownOutcome :=
  { pageClosed := persistentPage.isSome,
    browserClosed := browser.isSome,
    rlClosed := true,
    exitCode := 0 }

/-! ## Interleaving model of the miss path (src/server.ts lines 129-131)

The miss path performs three awaited steps on the single shared page:
`persistentPage.goto(url)`, `persistentPage.content()`, then
`formCache.set(url, html)` (with `res.send`).  Each `await` is a
suspension point, so steps of two concurrent requests may interleave in
any order.  `render` gives the document content of the page when it is at
a given location. -/

/-- A request mid-flight through the miss path: its target URL, its program
counter over the three awaited steps, and the HTML it has captured. -/
structure FetchThread where
  url : String
  pc : Nat
  html : Option String
deriving DecidableEq, Repr

/-- Shared state of two concurrent miss-path requests: the location of the
single shared page, the cache, and both threads. -/
structure InterleaveState where
  pageUrl : String
  cache : List (String × String)
  a : FetchThread
  b : FetchThread
deriving DecidableEq, Repr

/-- One awaited step of a thread: pc 0 = `goto` (moves the shared page),
pc 1 = `content` (captures whatever the shared page currently shows),
pc 2 = `cache.set` of the captured HTML under the URL of the thread. -/
def threadStep (render : String → String) (pageUrl : String)
    (cache : List (String × String)) (t : FetchThread) :
    String × List (String × String) × FetchThread :=
  match t.pc with
  | 0 => (t.url, cache, { t with pc := 1 })
  | 1 => (pageUrl, cache, { t with pc := 2, html := some (render pageUrl) })
  | 2 => (pageUrl, mapSet cache t.url (t.html.getD ""), { t with pc := 3 })
  | _ => (pageUrl, cache, t)

/-- Run one scheduler step: `true` steps thread A, `false` steps thread B. -/
def schedStep (render : String → String) (s : InterleaveState)
    (who : Bool) : InterleaveState :=
  if who then
    match threadStep render s.pageUrl s.cache s.a with
    | (p, c, t) => { s with pageUrl := p, cache := c, a := t }
  else
    match threadStep render s.pageUrl s.cache s.b with
    | (p, c, t) => { s with pageUrl := p, cache := c, b := t }

/-- Run a schedule (a list of thread choices) from a state. -/
def runSched (render : String → String) :
    InterleaveState → List Bool → InterleaveState
  | s, [] => s
  | s, w :: ws => runSched render (schedStep render s w) ws

/-! ## Concrete inputs used by witnesses and counterexamples -/

def exampleUrl : String := "https://example.com/form"

def otherUrl : String := "https://example.com/other"

def emptyStr : String := ""

/-- A concrete page-content function: the serialized document at a URL. -/
def htmlOf (u : String) : String := "<html><body>" ++ u ++ "</body></html>"

/-- State after a successful `initializeBrowser`, with an empty cache. -/
def authState : ServerState :=
  { browser := some (), persistentPage := some (), formCache := [] }

/-- State before any initialization: both references null, empty cache. -/
def uninitState : ServerState :=
  { browser := none, persistentPage := none, formCache := [] }

/-- Unauthenticated state whose cache already holds `exampleUrl`. -/
def cachedUnauthState : ServerState :=
  { browser := none, persistentPage := some (),
    formCache := [(exampleUrl, htmlOf exampleUrl)] }

/-- Unauthenticated state whose cache already holds the empty-string key. -/
def emptyKeyCachedState : ServerState :=
  { browser := none, persistentPage := none,
    formCache := [(emptyStr, htmlOf emptyStr)] }

/-- A page on which every navigation and capture succeeds. -/
def okOracle : PageOracle :=
  { goto := fun _ => true, content := fun u => some (htmlOf u) }

/-- A page on which every navigation fails (e.g. a network outage). -/
def failOracle : PageOracle :=
  { goto := fun _ => false, content := fun _ => none }

def sampleCode : String := "123456"

/-- Environment in which every puppeteer step succeeds and no verification
prompt is detected: the direct password branch runs. -/
def allOkDirectEnv : InitEnv :=
  { launchOk := true, newPageOk := true, setTimeoutOk := true,
    gotoLoginOk := true, typeEmailOk := true, clickIdentifierNextOk := true,
    waitLoginSelectorOk := true, evaluateOk := true,
    isVerificationPrompt := false, gmailOptionFound := true,
    clickGmailOptionOk := true, waitNavGmailOk := true,
    waitCodeFieldOk := true, code := sampleCode, typeCodeOk := true,
    clickTotpNextOk := true, waitNavCodeOk := true, typePasswordOk := true,
    clickPasswordNextOk := true, waitNavPasswordOk := true }

/-- Environment in which every step succeeds, a verification prompt is
detected, and the Gmail option exists: the challenge branch runs. -/
def allOkChallengeEnv : InitEnv :=
  { allOkDirectEnv with isVerificationPrompt := true }

/-- Environment in which a verification prompt is detected but the Gmail
verification option is absent: `initializeBrowser` throws. -/
def gmailMissingEnv : InitEnv :=
  { allOkDirectEnv with isVerificationPrompt := true, gmailOptionFound := false }

def urlA : String := "https://docs.google.com/forms/a"

def urlB : String := "https://docs.google.com/forms/b"

def initialPageUrl : String := "https://accounts.google.com/"

/-- Two concurrent miss-path requests, neither started, empty cache. -/
def raceStart : InterleaveState :=
  { pageUrl := initialPageUrl, cache := [],
    a := { url := urlA, pc := 0, html := none },
    b := { url := urlB, pc := 0, html := none } }

/-- Interleaved schedule: A navigates, B navigates, A captures and stores. -/
def raceSchedule : List Bool := [true, false, true, true]

/-- Serialized schedule: A runs its whole transaction, then B runs. -/
def serialSchedule : List Bool := [true, true, true, false, false, false]

/-! ## Cache lemmas -/

theorem mapGet_mapSet_self (c : List (String × String)) (k v : String) :
    mapGet (mapSet c k v) k = some v := by
  induction c with
  | nil => simp [mapGet, mapSet]
  | cons p rest ih =>
    by_cases h : p.1 = k
    · simp [mapGet, mapSet, h]
    · simpa [mapGet, mapSet, h] using ih

theorem mapGet_mapSet_ne (c : List (String × String)) (k k' v : String)
    (h : k' ≠ k) : mapGet (mapSet c k v) k' = mapGet c k' := by
  induction c with
  | nil => simp [mapGet, mapSet, Ne.symm h]
  | cons p rest ih =>
    by_cases hp : p.1 = k
    · subst hp
      simp [mapGet, mapSet, Ne.symm h]
    · by_cases hp' : p.1 = k'
      · simp [mapGet, mapSet, hp, hp', h]
      · simpa [mapGet, mapSet, hp, hp'] using ih

theorem mapHas_eq_isSome (c : List (String × String)) (k : String) :
    mapHas c k = (mapGet c k).isSome := by
  induction c with
  | nil => simp [mapHas, mapGet]
  | cons p rest ih =>
    by_cases h : p.1 = k
    · simp [mapHas, mapGet, h]
    · simpa [mapHas, mapGet, h] using ih

/-! ## Branch lemmas for `fetchFormHandler` -/

theorem fetchFormHandler_invalid (q : Option QueryValue) (st : ServerState)
    (pg : PageOracle) (h : (!(jsTruthy q) || !(isStringParam q)) = true) :
    fetchFormHandler q st pg = ⟨.jsonError 400 urlRequiredMsg, st, []⟩ := by
  simp [fetchFormHandler, h]

theorem fetchFormHandler_unauthenticated (q : Option QueryValue)
    (st : ServerState) (pg : PageOracle)
    (hv : (!(jsTruthy q) || !(isStringParam q)) = false)
    (hg : (st.browser.isNone || st.persistentPage.isNone) = true) :
    fetchFormHandler q st pg = ⟨.jsonError 500 notInitializedMsg, st, []⟩ := by
  simp [fetchFormHandler, hv, hg]

theorem fetchFormHandler_hit (q : Option QueryValue) (st : ServerState)
    (pg : PageOracle)
    (hv : (!(jsTruthy q) || !(isStringParam q)) = false)
    (hg : (st.browser.isNone || st.persistentPage.isNone) = false)
    (hh : mapHas st.formCache (getStr q) = true) :
    fetchFormHandler q st pg =
      ⟨.ok ((mapGet st.formCache (getStr q)).getD ""), st, []⟩ := by
  simp [fetchFormHandler, hv, hg, hh]

theorem fetchFormHandler_miss_ok (q : Option QueryValue) (st : ServerState)
    (pg : PageOracle) (html : String)
    (hv : (!(jsTruthy q) || !(isStringParam q)) = false)
    (hg : (st.browser.isNone || st.persistentPage.isNone) = false)
    (hh : mapHas st.formCache (getStr q) = false)
    (hgoto : pg.goto (getStr q) = true)
    (hc : pg.content (getStr q) = some html) :
    fetchFormHandler q st pg =
      ⟨.ok html, { st with formCache := mapSet st.formCache (getStr q) html },
       [getStr q]⟩ := by
  simp [fetchFormHandler, hv, hg, hh, hgoto, hc]

theorem fetchFormHandler_miss_fail (q : Option QueryValue) (st : ServerState)
    (pg : PageOracle)
    (hv : (!(jsTruthy q) || !(isStringParam q)) = false)
    (hg : (st.browser.isNone || st.persistentPage.isNone) = false)
    (hh : mapHas st.formCache (getStr q) = false)
    (hf : pg.goto (getStr q) = false ∨ pg.content (getStr q) = none) :
    fetchFormHandler q st pg = ⟨.jsonError 500 fetchFailedMsg, st, [getStr q]⟩ := by
  rcases hf with hf | hf
  · simp [fetchFormHandler, hv, hg, hh, hf]
  · by_cases hgoto : pg.goto (getStr q) = true
    · simp [fetchFormHandler, hv, hg, hh, hgoto, hf]
    · simp at hgoto
      simp [fetchFormHandler, hv, hg, hh, hgoto]

/-- Case analysis on the state component: the handler either leaves the
server state unchanged or extends the cache at the (previously absent)
requested key. -/
theorem fetchFormHandler_state_eq (q : Option QueryValue) (st : ServerState)
    (pg : PageOracle) :
    (fetchFormHandler q st pg).state = st ∨
    ∃ html, mapHas st.formCache (getStr q) = false ∧
      (fetchFormHandler q st pg).state =
        { st with formCache := mapSet st.formCache (getStr q) html } := by
  by_cases hv : (!(jsTruthy q) || !(isStringParam q)) = true
  · rw [fetchFormHandler_invalid q st pg hv]
    exact Or.inl rfl
  · rw [Bool.not_eq_true] at hv
    by_cases hg : (st.browser.isNone || st.persistentPage.isNone) = true
    · rw [fetchFormHandler_unauthenticated q st pg hv hg]
      exact Or.inl rfl
    · rw [Bool.not_eq_true] at hg
      by_cases hh : mapHas st.formCache (getStr q) = true
      · rw [fetchFormHandler_hit q st pg hv hg hh]
        exact Or.inl rfl
      · rw [Bool.not_eq_true] at hh
        by_cases hgoto : pg.goto (getStr q) = true
        · cases hc : pg.content (getStr q) with
          | none =>
            rw [fetchFormHandler_miss_fail q st pg hv hg hh (Or.inr hc)]
            exact Or.inl rfl
          | some html =>
            rw [fetchFormHandler_miss_ok q st pg html hv hg hh hgoto hc]
            exact Or.inr ⟨html, hh, rfl⟩
        · rw [Bool.not_eq_true] at hgoto
          rw [fetchFormHandler_miss_fail q st pg hv hg hh (Or.inl hgoto)]
          exact Or.inl rfl

/-- The fetch handler never mutates the browser and page references. -/
theorem fetchFormHandler_preserves_refs (q : Option QueryValue)
    (st : ServerState) (pg : PageOracle) :
    (fetchFormHandler q st pg).state.browser = st.browser ∧
    (fetchFormHandler q st pg).state.persistentPage = st.persistentPage := by
  rcases fetchFormHandler_state_eq q st pg with h | ⟨html, _, h⟩ <;>
    rw [h] <;> exact ⟨rfl, rfl⟩

/-- Bindings already present in the cache survive any fetch request with the
same value: the handler writes only keys that `mapHas` reports absent. -/
theorem fetchFormHandler_preserves_cache (q : Option QueryValue)
    (st : ServerState) (pg : PageOracle) (u v : String)
    (h : mapGet st.formCache u = some v) :
    mapGet (fetchFormHandler q st pg).state.formCache u = some v := by
  rcases fetchFormHandler_state_eq q st pg with he | ⟨html, habs, he⟩
  · rw [he]
    exact h
  · rw [he]
    by_cases hk : getStr q = u
    · exfalso
      rw [hk, mapHas_eq_isSome, h] at habs
      simp at habs
    · rw [mapGet_mapSet_ne st.formCache (getStr q) u html (Ne.symm hk)]
      exact h

/-- A fetch of a single-string `u` answered `.ok h` implies the validation
and guard both passed and the resulting cache binds `u` to `h`. -/
theorem fetch_ok_cached (st : ServerState) (pg : PageOracle) (u h : String)
    (h1 : (fetchFormHandler (some (.str u)) st pg).response = .ok h) :
    (u == "") = false ∧
    (st.browser.isNone || st.persistentPage.isNone) = false ∧
    mapGet (fetchFormHandler (some (.str u)) st pg).state.formCache u = some h := by
  have hq : (!(jsTruthy (some (.str u))) || !(isStringParam (some (.str u)))) =
      (u == "") := by
    simp only [jsTruthy, isStringParam, Bool.not_not, Bool.not_true, Bool.or_false]
  by_cases he : (u == "") = true
  · rw [fetchFormHandler_invalid _ st pg (hq.trans he)] at h1
    simp at h1
  · rw [Bool.not_eq_true] at he
    have hv := hq.trans he
    by_cases hg : (st.browser.isNone || st.persistentPage.isNone) = true
    · rw [fetchFormHandler_unauthenticated _ st pg hv hg] at h1
      simp at h1
    · rw [Bool.not_eq_true] at hg
      refine ⟨he, hg, ?_⟩
      by_cases hh : mapHas st.formCache u = true
      · have hs : (mapGet st.formCache u).isSome := by
          rw [← mapHas_eq_isSome]
          exact hh
        obtain ⟨v, hvv⟩ := Option.isSome_iff_exists.mp hs
        have heq : fetchFormHandler (some (.str u)) st pg = ⟨.ok v, st, []⟩ := by
          rw [fetchFormHandler_hit _ st pg hv hg hh]
          simp [getStr, hvv]
        rw [heq] at h1
        have hvh : v = h := by simpa using h1
        rw [heq]
        show mapGet st.formCache u = some h
        rw [← hvh]
        exact hvv
      · rw [Bool.not_eq_true] at hh
        by_cases hgoto : pg.goto u = true
        · cases hc : pg.content u with
          | none =>
            rw [fetchFormHandler_miss_fail _ st pg hv hg hh (Or.inr hc)] at h1
            simp at h1
          | some html =>
            have hm := fetchFormHandler_miss_ok (some (.str u)) st pg html hv hg hh hgoto hc
            rw [hm] at h1 ⊢
            have hth : html = h := by simpa using h1
            subst hth
            exact mapGet_mapSet_self st.formCache u html
        · rw [Bool.not_eq_true] at hgoto
          rw [fetchFormHandler_miss_fail _ st pg hv hg hh (Or.inl hgoto)] at h1
          simp at h1

/-! ## Claim theorems -/

/-- C1: for a URL absent from the cache, with the session authenticated
(browser and page references non-null), a fetch navigates the shared page
to exactly the input URL, captures the serialized HTML, stores it in the
cache under exactly the input string, and sends it back with status 200. -/
theorem fetch_miss_navigates_caches_returns (st : ServerState)
    (pg : PageOracle) (u h : String) (hu : u ≠ "")
    (hb : st.browser = some ()) (hp : st.persistentPage = some ())
    (hmiss : mapHas st.formCache u = false)
    (hgoto : pg.goto u = true) (hcontent : pg.content u = some h) :
    fetchFormHandler (some (.str u)) st pg =
      ⟨.ok h, { st with formCache := mapSet st.formCache u h }, [u]⟩ ∧
    mapGet (fetchFormHandler (some (.str u)) st pg).state.formCache u = some h ∧
    (fetchFormHandler (some (.str u)) st pg).response.status = 200 := by
  have hv : (!(jsTruthy (some (.str u))) || !(isStringParam (some (.str u)))) =
      false := by
    simp only [jsTruthy, isStringParam, Bool.not_not, Bool.not_true, Bool.or_false]
    simpa using hu
  have hg : (st.browser.isNone || st.persistentPage.isNone) = false := by
    rw [hb, hp]
    rfl
  have hmain := fetchFormHandler_miss_ok (some (.str u)) st pg h hv hg hmiss hgoto hcontent
  refine ⟨hmain, ?_, ?_⟩
  · rw [hmain]
    exact mapGet_mapSet_self st.formCache u h
  · rw [hmain]
    rfl

/-- Witness for C1: fetching a concrete form URL against the authenticated
empty-cache state and an always-succeeding page. -/
theorem fetch_miss_navigates_caches_returns_witness :
    fetchFormHandler (some (.str exampleUrl)) authState okOracle =
      ⟨.ok (htmlOf exampleUrl),
       { authState with
          formCache := mapSet authState.formCache exampleUrl (htmlOf exampleUrl) },
       [exampleUrl]⟩ ∧
    mapGet (fetchFormHandler (some (.str exampleUrl))
        authState okOracle).state.formCache exampleUrl = some (htmlOf exampleUrl) ∧
    (fetchFormHandler (some (.str exampleUrl)) authState okOracle).response.status =
      200 :=
  fetch_miss_navigates_caches_returns authState okOracle exampleUrl
    (htmlOf exampleUrl) (by decide) rfl rfl rfl rfl rfl

/-- C2: after a first fetch of `u` was answered `.ok h`, a repeat fetch of
`u` (on any page behaviour) returns exactly `h`, performs no `goto` call,
and leaves the whole server state unchanged; moreover the binding of `u`
survives any further request with the same value (first-fetch-wins). -/
theorem fetch_idempotent_first_wins (st : ServerState)
    (pg₁ pg₂ pg₃ : PageOracle) (u h : String) (q : Option QueryValue)
    (h1 : (fetchFormHandler (some (.str u)) st pg₁).response = .ok h) :
    (fetchFormHandler (some (.str u))
        (fetchFormHandler (some (.str u)) st pg₁).state pg₂).response = .ok h ∧
    (fetchFormHandler (some (.str u))
        (fetchFormHandler (some (.str u)) st pg₁).state pg₂).navCalls = [] ∧
    (fetchFormHandler (some (.str u))
        (fetchFormHandler (some (.str u)) st pg₁).state pg₂).state =
      (fetchFormHandler (some (.str u)) st pg₁).state ∧
    mapGet (fetchFormHandler q
        (fetchFormHandler (some (.str u)) st pg₁).state pg₃).state.formCache u =
      some h := by
  obtain ⟨hne, hg, hcache⟩ := fetch_ok_cached st pg₁ u h h1
  obtain ⟨hbr, hpp⟩ := fetchFormHandler_preserves_refs (some (.str u)) st pg₁
  have hv : (!(jsTruthy (some (.str u))) || !(isStringParam (some (.str u)))) =
      false := by
    simp only [jsTruthy, isStringParam, Bool.not_not, Bool.not_true, Bool.or_false]
    exact hne
  have hg₁ : ((fetchFormHandler (some (.str u)) st pg₁).state.browser.isNone ||
      (fetchFormHandler (some (.str u)) st pg₁).state.persistentPage.isNone) =
      false := by
    rw [hbr, hpp]
    exact hg
  have hh₁ : mapHas (fetchFormHandler (some (.str u)) st pg₁).state.formCache u =
      true := by
    rw [mapHas_eq_isSome, hcache]
    rfl
  have hhit := fetchFormHandler_hit (some (.str u))
    (fetchFormHandler (some (.str u)) st pg₁).state pg₂ hv hg₁ hh₁
  refine ⟨?_, ?_, ?_, ?_⟩
  · rw [hhit]
    show HttpResponse.ok
        ((mapGet (fetchFormHandler (some (.str u)) st pg₁).state.formCache u).getD "") =
      .ok h
    rw [hcache]
    rfl
  · rw [hhit]
  · rw [hhit]
  · exact fetchFormHandler_preserves_cache q
      (fetchFormHandler (some (.str u)) st pg₁).state pg₃ u h hcache

/-- Witness for C2: first fetch against a working page, repeat against a
broken one (showing the page is not consulted), then an unrelated request. -/
theorem fetch_idempotent_first_wins_witness :
    (fetchFormHandler (some (.str exampleUrl))
        (fetchFormHandler (some (.str exampleUrl)) authState okOracle).state
        failOracle).response = .ok (htmlOf exampleUrl) ∧
    (fetchFormHandler (some (.str exampleUrl))
        (fetchFormHandler (some (.str exampleUrl)) authState okOracle).state
        failOracle).navCalls = [] ∧
    (fetchFormHandler (some (.str exampleUrl))
        (fetchFormHandler (some (.str exampleUrl)) authState okOracle).state
        failOracle).state =
      (fetchFormHandler (some (.str exampleUrl)) authState okOracle).state ∧
    mapGet (fetchFormHandler (some (.str otherUrl))
        (fetchFormHandler (some (.str exampleUrl)) authState okOracle).state
        okOracle).state.formCache exampleUrl = some (htmlOf exampleUrl) :=
  fetch_idempotent_first_wins authState okOracle failOracle okOracle exampleUrl
    (htmlOf exampleUrl) (some (.str otherUrl)) (by decide)

/-- C3: a missing `url` parameter, or one parsed as an array (repeated
query key), is answered 400 with the documented error body, for every
session state and page behaviour. -/
theorem fetch_validation_rejects (q : Option QueryValue) (st : ServerState)
    (pg : PageOracle) (h : q = none ∨ ∃ l, q = some (.arr l)) :
    fetchFormHandler q st pg = ⟨.jsonError 400 urlRequiredMsg, st, []⟩ := by
  rcases h with h | ⟨l, h⟩ <;> subst h <;>
    exact fetchFormHandler_invalid _ st pg (by simp [jsTruthy, isStringParam])

/-- Witness for C3: a missing parameter on an uninitialized session, and a
repeated key on an authenticated one. -/
theorem fetch_validation_rejects_witness :
    fetchFormHandler none uninitState failOracle =
      ⟨.jsonError 400 urlRequiredMsg, uninitState, []⟩ ∧
    fetchFormHandler (some (.arr [exampleUrl, otherUrl])) authState okOracle =
      ⟨.jsonError 400 urlRequiredMsg, authState, []⟩ :=
  ⟨fetch_validation_rejects none uninitState failOracle (Or.inl rfl),
   fetch_validation_rejects (some (.arr [exampleUrl, otherUrl])) authState
     okOracle (Or.inr ⟨[exampleUrl, otherUrl], rfl⟩)⟩

/-- C4 as stated is false: the empty string is a present, single-string
`url` value, yet with both references null (and the empty-string key even
cached) the handler answers 400 from the falsy-value validation check, not
500 `Browser not initialized`. -/
theorem fetch_guard_counterexample :
    (fetchFormHandler (some (.str emptyStr))
        emptyKeyCachedState failOracle).response =
      .jsonError 400 urlRequiredMsg ∧
    (fetchFormHandler (some (.str emptyStr))
        emptyKeyCachedState failOracle).response ≠
      .jsonError 500 notInitializedMsg := by
  decide

/-- C4 (amended): for a present, single-string, nonempty `url`, a session
with the browser or page reference null is answered 500
`Browser not initialized`, whatever the cache holds — in particular even
when the requested URL is already cached. -/
theorem fetch_unauthenticated_guard (st : ServerState) (pg : PageOracle)
    (u : String) (hu : u ≠ "")
    (hg : st.browser = none ∨ st.persistentPage = none) :
    fetchFormHandler (some (.str u)) st pg =
      ⟨.jsonError 500 notInitializedMsg, st, []⟩ := by
  have hv : (!(jsTruthy (some (.str u))) || !(isStringParam (some (.str u)))) =
      false := by
    simp only [jsTruthy, isStringParam, Bool.not_not, Bool.not_true, Bool.or_false]
    simpa using hu
  refine fetchFormHandler_unauthenticated _ st pg hv ?_
  rcases hg with hg | hg <;> rw [hg] <;> simp

/-- Witness for the amended C4: the requested URL is already in the cache,
the page reference is live, but the browser reference is null. -/
theorem fetch_unauthenticated_guard_witness :
    fetchFormHandler (some (.str exampleUrl)) cachedUnauthState okOracle =
      ⟨.jsonError 500 notInitializedMsg, cachedUnauthState, []⟩ :=
  fetch_unauthenticated_guard cachedUnauthState okOracle exampleUrl
    (by decide) (Or.inl rfl)

/-- C5: when validation and the guard pass and the navigation or capture
step throws, the handler answers 500 `Failed to fetch form`, leaves the
entire server state unchanged, and a subsequent request on the resulting
state is served normally — the failure is local to the request. -/
theorem fetch_failure_request_local (st : ServerState) (pg pg₂ : PageOracle)
    (u h₂ : String) (hu : u ≠ "")
    (hb : st.browser = some ()) (hp : st.persistentPage = some ())
    (hmiss : mapHas st.formCache u = false)
    (hf : pg.goto u = false ∨ pg.content u = none)
    (hgoto₂ : pg₂.goto u = true) (hc₂ : pg₂.content u = some h₂) :
    fetchFormHandler (some (.str u)) st pg =
      ⟨.jsonError 500 fetchFailedMsg, st, [u]⟩ ∧
    (fetchFormHandler (some (.str u))
        (fetchFormHandler (some (.str u)) st pg).state pg₂).response = .ok h₂ := by
  have hv : (!(jsTruthy (some (.str u))) || !(isStringParam (some (.str u)))) =
      false := by
    simp only [jsTruthy, isStringParam, Bool.not_not, Bool.not_true, Bool.or_false]
    simpa using hu
  have hg : (st.browser.isNone || st.persistentPage.isNone) = false := by
    rw [hb, hp]
    rfl
  have h1 := fetchFormHandler_miss_fail (some (.str u)) st pg hv hg hmiss hf
  have h2 := fetchFormHandler_miss_ok (some (.str u)) st pg₂ h₂ hv hg hmiss hgoto₂ hc₂
  refine ⟨h1, ?_⟩
  rw [h1]
  show (fetchFormHandler (some (.str u)) st pg₂).response = .ok h₂
  rw [h2]

/-- Witness for C5: a failing navigation answered 500, then the same URL
served from the unchanged state by a working page. -/
theorem fetch_failure_request_local_witness :
    fetchFormHandler (some (.str exampleUrl)) authState failOracle =
      ⟨.jsonError 500 fetchFailedMsg, authState, [exampleUrl]⟩ ∧
    (fetchFormHandler (some (.str exampleUrl))
        (fetchFormHandler (some (.str exampleUrl)) authState failOracle).state
        okOracle).response = .ok (htmlOf exampleUrl) :=
  fetch_failure_request_local authState failOracle okOracle exampleUrl
    (htmlOf exampleUrl) (by decide) rfl rfl rfl (Or.inl rfl) rfl rfl

/-- C10: the empty string is present and a single string, yet falsy in
JavaScript, so the handler rejects it 400 with the same body as a missing
parameter, for every session state and page behaviour. -/
theorem fetch_empty_string_rejected (st : ServerState) (pg : PageOracle) :
    fetchFormHandler (some (.str emptyStr)) st pg =
      ⟨.jsonError 400 urlRequiredMsg, st, []⟩ :=
  fetchFormHandler_invalid _ st pg (by decide)

/-- Full case analysis of `initializeBrowser`, phrased over an abstract
outcome so the if-chain is traversed once: an error outcome has both
references nulled and each resource closed exactly when acquired; a
successful outcome ran exactly the branch selected by the detected
verification prompt (submitting the human code on the challenge branch),
with both resources live and the catch block never run. -/
theorem initializeBrowser_spec (env : InitEnv) (o : InitOutcome)
    (ho : initializeBrowser env = o) :
    ((∃ e, o.result = .error e) →
      o.browser = none ∧ o.persistentPage = none ∧
      o.pageClosed = o.pageAcquired ∧ o.browserClosed = o.browserAcquired) ∧
    (∀ b, o.result = .ok b →
      (o.directRun = true ∧ o.challengeRun = false ∧ b = .direct ∧
          env.isVerificationPrompt = false ∨
        o.directRun = false ∧ o.challengeRun = true ∧ b = .challenge ∧
          env.isVerificationPrompt = true ∧ o.submittedCode = some env.code) ∧
      o.browser = some () ∧ o.persistentPage = some () ∧
      o.pageClosed = false ∧ o.browserClosed = false) := by
  unfold initializeBrowser at ho
  split at ho <;> subst ho <;> simp_all [initCatch]

/-- C6: whenever `initializeBrowser` surfaces an error, each resource that
had been acquired was closed by the catch block, both references end up
null, and the surfaced error makes `startServer` exit the process with
code 1 before the transport layer ever listens. -/
theorem init_failure_cleans_up_and_aborts (env : InitEnv) (e : String)
    (h : (initializeBrowser env).result = .error e) :
    (initializeBrowser env).browser = none ∧
    (initializeBrowser env).persistentPage = none ∧
    (initializeBrowser env).pageClosed = (initializeBrowser env).pageAcquired ∧
    (initializeBrowser env).browserClosed = (initializeBrowser env).browserAcquired ∧
    startServer env = ⟨false, some 1⟩ := by
  obtain ⟨herr, -⟩ := initializeBrowser_spec env (initializeBrowser env) rfl
  obtain ⟨h1, h2, h3, h4⟩ := herr ⟨e, h⟩
  refine ⟨h1, h2, h3, h4, ?_⟩
  unfold startServer
  rw [h]

/-- Witness for C6: the missing Gmail verification option makes
`initializeBrowser` throw with both resources held; both are closed and
nulled and the process aborts with exit code 1, never listening. -/
theorem init_failure_cleans_up_and_aborts_witness :
    (initializeBrowser gmailMissingEnv).browser = none ∧
    (initializeBrowser gmailMissingEnv).persistentPage = none ∧
    (initializeBrowser gmailMissingEnv).pageClosed =
      (initializeBrowser gmailMissingEnv).pageAcquired ∧
    (initializeBrowser gmailMissingEnv).browserClosed =
      (initializeBrowser gmailMissingEnv).browserAcquired ∧
    startServer gmailMissingEnv = ⟨false, some 1⟩ :=
  init_failure_cleans_up_and_aborts gmailMissingEnv gmailOptionMissingMsg rfl

/-- C7: every successful run of `initializeBrowser` completes through
exactly one branch — the direct password branch when no verification prompt
was detected, the challenge branch (which submits the human-supplied code)
when one was — never both, and never out of the failure path: the catch
block did not run and both resources are live. -/
theorem init_success_single_branch (env : InitEnv) (b : AuthBranch)
    (h : (initializeBrowser env).result = .ok b) :
    ((initializeBrowser env).directRun = true ∧
       (initializeBrowser env).challengeRun = false ∧
       b = .direct ∧ env.isVerificationPrompt = false ∨
     (initializeBrowser env).directRun = false ∧
       (initializeBrowser env).challengeRun = true ∧
       b = .challenge ∧ env.isVerificationPrompt = true ∧
       (initializeBrowser env).submittedCode = some env.code) ∧
    (initializeBrowser env).browser = some () ∧
    (initializeBrowser env).persistentPage = some () ∧
    (initializeBrowser env).pageClosed = false ∧
    (initializeBrowser env).browserClosed = false := by
  obtain ⟨-, hok⟩ := initializeBrowser_spec env (initializeBrowser env) rfl
  exact hok b h

/-- Witness for C7: with every step succeeding and a verification prompt
detected, authentication completes through the challenge branch alone,
submitting the human-supplied code. -/
theorem init_success_single_branch_witness :
    ((initializeBrowser allOkChallengeEnv).directRun = true ∧
       (initializeBrowser allOkChallengeEnv).challengeRun = false ∧
       AuthBranch.challenge = .direct ∧
       allOkChallengeEnv.isVerificationPrompt = false ∨
     (initializeBrowser allOkChallengeEnv).directRun = false ∧
       (initializeBrowser allOkChallengeEnv).challengeRun = true ∧
       AuthBranch.challenge = .challenge ∧
       allOkChallengeEnv.isVerificationPrompt = true ∧
       (initializeBrowser allOkChallengeEnv).submittedCode =
         some allOkChallengeEnv.code) ∧
    (initializeBrowser allOkChallengeEnv).browser = some () ∧
    (initializeBrowser allOkChallengeEnv).persistentPage = some () ∧
    (initializeBrowser allOkChallengeEnv).pageClosed = false ∧
    (initializeBrowser allOkChallengeEnv).browserClosed = false :=
  init_success_single_branch allOkChallengeEnv .challenge rfl

/-- C8: the shutdown path closes the page exactly when its reference is
non-null and the browser exactly when its reference is non-null, always
exits with code 0, and — since it never mutates the references and no step
of it can fail — a repeat invocation, or an invocation with both references
null (never acquired or already released), behaves identically and also
exits 0. -/
theorem shutdown_idempotent (b p : Option Unit) :
    shutdown b p = ⟨p.isSome, b.isSome, true, 0⟩ ∧
    shutdown none none = ⟨false, false, true, 0⟩ ∧
    (shutdown b p).exitCode = 0 :=
  ⟨rfl, rfl, rfl⟩

/-- C9: the three awaited steps of the miss path share one page with no
serialization, so the schedule in which request A navigates, request B
navigates, and A then captures and stores, leaves the cache binding the URL
of A to the rendered content of the URL of B — different from what the
serialized schedule produces; the handler admits this interleaving rather
than enforcing one in-flight navigate-then-capture transaction. -/
theorem shared_page_race :
    mapGet (runSched htmlOf raceStart raceSchedule).cache urlA =
      some (htmlOf urlB) ∧
    htmlOf urlB ≠ htmlOf urlA ∧
    (runSched htmlOf raceStart raceSchedule).a.pc = 3 ∧
    mapGet (runSched htmlOf raceStart serialSchedule).cache urlA =
      some (htmlOf urlA) := by
  decide

end GFormFetcher
